import Mathlib

/-!
Verification of the projection-aware rendering core of the
d3-animated-map-reference repository.

Shallow embedding conventions:

* JavaScript numbers are modelled as rationals where the embedded code
  uses only field operations and comparisons (metrics aggregation,
  projection selection, zoom state machine, angle interpolation), and as
  real numbers where transcendental functions occur (raster
  reprojection, Tissot indicatrix).
* Fallible operations (a d3 projection or its inverse returning null)
  are modelled with Option.
* Library code external to the repository (the d3 projection forward /
  inverse maps) is a parameter of the embedded functions; everything
  else is translated from the repository sources.
-/

namespace MetricsService

/-- One frame sample, from the FrameMetrics interface of
reprojection.service.ts. -/
structure FrameMetrics where
  frameTime : ℚ
  fps : ℚ
  reprojectionTime : ℚ
  timestamp : ℚ
  deriving DecidableEq

/-- Aggregated benchmark output, from the BenchmarkResult interface of
reprojection.service.ts.  The viewportSize record is flattened into two
fields. -/
structure BenchmarkResult where
  testName : String
  viewportWidth : ℚ
  viewportHeight : ℚ
  totalPixels : ℚ
  avgFps : ℚ
  minFps : ℚ
  maxFps : ℚ
  avgFrameTime : ℚ
  avgReprojectionTime : ℚ
  frameCount : ℕ
  duration : ℚ
  passesTarget : Bool
  deriving DecidableEq

/-- JavaScript Math.round: round half toward positive infinity, which is
what Mathlib round does on rationals. -/
def jsRound (q : ℚ) : ℚ := (round q : ℤ)

/-- Fold of JavaScript reduce with (a, b) => a + b and initial value 0. -/
def sumList (l : List ℚ) : ℚ := l.foldl (· + ·) 0

/-- JavaScript Math.min spread over a nonempty array (0 is the unused
default for the empty case, which the caller excludes). -/
def minList (l : List ℚ) : ℚ :=
  match l with
  | [] => 0
  | x :: xs => xs.foldl min x

/-- JavaScript Math.max spread over a nonempty array. -/
def maxList (l : List ℚ) : ℚ :=
  match l with
  | [] => 0
  | x :: xs => xs.foldl max x

/-- MetricsService.stopBenchmark from reprojection.service.ts.  The
frame history and the elapsed wall-clock duration
(performance.now() - benchmarkStartTime) are passed explicitly. -/
def stopBenchmark (frameHistory : List FrameMetrics) (testName : String)
    (width height duration : ℚ) : BenchmarkResult :=
  if frameHistory = [] then
    { testName := testName
      viewportWidth := width
      viewportHeight := height
      totalPixels := width * height
      avgFps := 0
      minFps := 0
      maxFps := 0
      avgFrameTime := 0
      avgReprojectionTime := 0
      frameCount := 0
      duration := duration
      passesTarget := false }
  else
    let fpsValues := frameHistory.map (·.fps)
    let frameTimeValues := frameHistory.map (·.frameTime)
    let reprojTimeValues := frameHistory.map (·.reprojectionTime)
    let avgFps := sumList fpsValues / fpsValues.length
    let minFps := minList fpsValues
    let maxFps := maxList fpsValues
    let avgFrameTime := sumList frameTimeValues / frameTimeValues.length
    let avgReprojectionTime := sumList reprojTimeValues / reprojTimeValues.length
    { testName := testName
      viewportWidth := width
      viewportHeight := height
      totalPixels := width * height
      avgFps := jsRound (avgFps * 10) / 10
      minFps := jsRound (minFps * 10) / 10
      maxFps := jsRound (maxFps * 10) / 10
      avgFrameTime := jsRound (avgFrameTime * 100) / 100
      avgReprojectionTime := jsRound (avgReprojectionTime * 100) / 100
      frameCount := frameHistory.length
      duration := jsRound duration
      passesTarget := decide (23 ≤ avgFps) }

end MetricsService

namespace ProjectionSelectorService

/-- The ProjectionType union of projection-selector.service.ts. -/
inductive ProjectionType where
  | equirectangular
  | mercator
  | orthographic
  | naturalEarth1
  | albers
  | albersUsa
  | azimuthalEqualArea
  | conicEqualArea
  | stereographic
  deriving DecidableEq, Repr

/-- The ProjectionConfig interface of projection-selector.service.ts. -/
structure ProjectionConfig where
  type : ProjectionType
  name : String
  globalView : Bool
  regionalView : Bool
  localView : Bool
  equalArea : Bool
  conformal : Bool
  clipAngle : Option ℚ := none
  optimalLatRange : Option (ℚ × ℚ) := none
  deriving DecidableEq

/-- The projectionConfigs Map of ProjectionSelectorService, in insertion
order. -/
def projectionConfigs : List (ProjectionType × ProjectionConfig) :=
  [ (.orthographic,
     { type := .orthographic, name := "Orthographic (Globe)"
       globalView := true, regionalView := false, localView := false
       equalArea := false, conformal := false, clipAngle := some 90 }),
    (.naturalEarth1,
     { type := .naturalEarth1, name := "Natural Earth"
       globalView := true, regionalView := true, localView := false
       equalArea := false, conformal := false }),
    (.equirectangular,
     { type := .equirectangular, name := "Equirectangular"
       globalView := true, regionalView := true, localView := true
       equalArea := false, conformal := false }),
    (.mercator,
     { type := .mercator, name := "Mercator"
       globalView := false, regionalView := true, localView := true
       equalArea := false, conformal := true }),
    (.azimuthalEqualArea,
     { type := .azimuthalEqualArea, name := "Azimuthal Equal Area"
       globalView := false, regionalView := true, localView := false
       equalArea := true, conformal := false
       optimalLatRange := some (60, 90) }),
    (.conicEqualArea,
     { type := .conicEqualArea, name := "Conic Equal Area"
       globalView := false, regionalView := true, localView := true
       equalArea := true, conformal := false
       optimalLatRange := some (20, 60) }),
    (.albers,
     { type := .albers, name := "Albers Equal Area"
       globalView := false, regionalView := true, localView := true
       equalArea := true, conformal := false
       optimalLatRange := some (20, 60) }),
    (.albersUsa,
     { type := .albersUsa, name := "Albers USA"
       globalView := false, regionalView := true, localView := true
       equalArea := true, conformal := false }),
    (.stereographic,
     { type := .stereographic, name := "Stereographic"
       globalView := false, regionalView := true, localView := true
       equalArea := false, conformal := true, clipAngle := some 90 }) ]

/-- scaleThresholds.global of ProjectionSelectorService (1.5). -/
def scaleThresholdGlobal : ℚ := 3/2

/-- scaleThresholds.regional of ProjectionSelectorService (6). -/
def scaleThresholdRegional : ℚ := 6

/-- The hysteresis band of ProjectionSelectorService (0.3). -/
def hysteresis : ℚ := 3/10

/-- The ViewportState interface (center is a longitude, latitude pair). -/
structure ViewportState where
  center : ℚ × ℚ
  scale : ℚ
  width : ℚ
  height : ℚ
  deriving DecidableEq

/-- The recommendation part of a ProjectionSelectionResult: the selected
projection type and the reason string.  The GeoProjection instance built
by the d3 library is outside the embedded state. -/
structure SelectionOutcome where
  projectionType : ProjectionType
  reason : String
  deriving DecidableEq

/-- ProjectionSelectorService.applyHysteresis: reuse the scale at which
the projection last changed when the new scale is within the hysteresis
band of it. -/
def applyHysteresis (lastChangeScale scale : ℚ) : ℚ :=
  if |scale - lastChangeScale| < hysteresis then lastChangeScale else scale

/-- ProjectionSelectorService.selectOptimalProjection, restricted to the
recommendation it computes (the recommended type and reason).
lastChangeScale is the service field read by applyHysteresis. -/
def selectOptimalProjection (lastChangeScale : ℚ) (viewport : ViewportState) :
    SelectionOutcome :=
  let lat := viewport.center.2
  let absLat := |lat|
  let effectiveScale := applyHysteresis lastChangeScale viewport.scale
  let isGlobalView := effectiveScale < scaleThresholdGlobal
  let isLocalView := scaleThresholdRegional < effectiveScale
  if isGlobalView then
    if effectiveScale < 4/5 then
      ⟨.orthographic, "Globe view for very zoomed out perspective"⟩
    else
      ⟨.naturalEarth1,
       "Natural Earth for balanced global view with less distortion than Mercator"⟩
  else if isLocalView then
    if 70 < absLat then
      ⟨.stereographic, "Stereographic for polar regions to minimize shape distortion"⟩
    else
      ⟨.mercator, "Mercator for local view with preserved angles and shapes"⟩
  else
    if 60 < absLat then
      ⟨.azimuthalEqualArea,
       "Azimuthal Equal Area for high latitude regions with accurate areas"⟩
    else if 20 < absLat ∧ absLat ≤ 60 then
      ⟨.conicEqualArea,
       "Conic Equal Area for mid-latitude regions with balanced distortion"⟩
    else
      ⟨.naturalEarth1, "Natural Earth for equatorial regions with good visual balance"⟩

end ProjectionSelectorService

namespace ProjectionTransitionService

/-- First while loop of ProjectionTransitionService.normalizeAngle:
subtract 360 while the angle exceeds 180. -/
def reduceAbove (angle : ℚ) : ℚ :=
  if 180 < angle then reduceAbove (angle - 360) else angle
termination_by (⌈(angle - 180) / 360⌉).toNat
decreasing_by
  have h1 : (angle - 360 - 180) / 360 = (angle - 180) / 360 - 1 := by ring
  have h2 : (0:ℚ) < (angle - 180) / 360 := by
    apply div_pos (by linarith) (by norm_num)
  have h3 : 0 < ⌈(angle - 180) / 360⌉ := Int.ceil_pos.mpr h2
  rw [h1]
  rw [show ((1:ℚ) = ((1:ℤ):ℚ)) from by norm_num, Int.ceil_sub_int]
  omega

/-- Second while loop of ProjectionTransitionService.normalizeAngle:
add 360 while the angle is below -180. -/
def reduceBelow (angle : ℚ) : ℚ :=
  if angle < -180 then reduceBelow (angle + 360) else angle
termination_by (⌈(-180 - angle) / 360⌉).toNat
decreasing_by
  have h1 : (-180 - (angle + 360)) / 360 = (-180 - angle) / 360 - 1 := by ring
  have h2 : (0:ℚ) < (-180 - angle) / 360 := by
    apply div_pos (by linarith) (by norm_num)
  have h3 : 0 < ⌈(-180 - angle) / 360⌉ := Int.ceil_pos.mpr h2
  rw [h1]
  rw [show ((1:ℚ) = ((1:ℤ):ℚ)) from by norm_num, Int.ceil_sub_int]
  omega

/-- ProjectionTransitionService.normalizeAngle: bring an angle into the
[-180, 180] range by repeatedly shifting by 360. -/
def normalizeAngle (angle : ℚ) : ℚ := reduceBelow (reduceAbove angle)

/-- ProjectionTransitionService.interpolateValue: plain linear
interpolation. -/
def interpolateValue (fromV toV t : ℚ) : ℚ := fromV + (toV - fromV) * t

/-- ProjectionTransitionService.interpolateAngle: normalize both
endpoints, take the shortest signed delta, interpolate along it. -/
def interpolateAngle (fromV toV t : ℚ) : ℚ :=
  let f := normalizeAngle fromV
  let g := normalizeAngle toV
  let diff0 := g - f
  let diff1 := if 180 < diff0 then diff0 - 360 else diff0
  let diff2 := if diff1 < -180 then diff1 + 360 else diff1
  f + diff2 * t

/-- The rotation vector computed by
ProjectionTransitionService.createInterpolatedProjection: the first
component goes through interpolateAngle, the second and third through
interpolateValue. -/
def interpolateRotation (fromRotation toRotation : ℚ × ℚ × ℚ) (t : ℚ) :
    ℚ × ℚ × ℚ :=
  (interpolateAngle fromRotation.1 toRotation.1 t,
   interpolateValue fromRotation.2.1 toRotation.2.1 t,
   interpolateValue fromRotation.2.2 toRotation.2.2 t)

end ProjectionTransitionService

namespace GeoZoomService

/-- The scale and rotation state of GeoZoomService that the wheel
handler and the animation loop read and write. -/
structure ZoomState where
  currentRotation : ℚ × ℚ × ℚ
  targetRotation : ℚ × ℚ × ℚ
  currentScale : ℚ
  targetScale : ℚ
  scaleVelocity : ℚ
  deriving DecidableEq

/-- smoothingBase field of GeoZoomService (0.15). -/
def smoothingBase : ℚ := 3/20

/-- scaleSmoothingBase field of GeoZoomService (0.18). -/
def scaleSmoothingBase : ℚ := 9/50

/-- currentScale / initialScale with the JavaScript falsy fallback to 1
(the or-1 in the source covers a zero quotient). -/
def relScaleOf (initialScale currentScale : ℚ) : ℚ :=
  if currentScale / initialScale = 0 then 1 else currentScale / initialScale

/-- GeoZoomService.handleWheel: scale the zoom target by 1.1 or 0.9,
clamp it to the configured extent, and blend the scale velocity. -/
def handleWheel (initialScale extentLo extentHi deltaY : ℚ) (s : ZoomState) :
    ZoomState :=
  let delta := -deltaY
  let scaleFactor : ℚ := if 0 < delta then 11/10 else 9/10
  let newTarget :=
    max (extentLo * initialScale)
      (min (extentHi * initialScale) (s.targetScale * scaleFactor))
  let velocityDelta := (newTarget - s.currentScale) * (2/10)
  { s with
    scaleVelocity := s.scaleVelocity * (5/10) + velocityDelta
    targetScale := newTarget }

/-- One iteration of the animate closure in
GeoZoomService.startAnimationLoop: lerp the rotation toward its target,
advance the scale with the damped-spring update, then clamp the scale to
the extent. -/
def frameStep (initialScale extentLo extentHi : ℚ) (s : ZoomState) : ZoomState :=
  let relScale := relScaleOf initialScale s.currentScale
  let smoothing := smoothingBase * min relScale 4
  let next : ℚ × ℚ × ℚ :=
    (s.currentRotation.1 + (s.targetRotation.1 - s.currentRotation.1) * smoothing,
     s.currentRotation.2.1 + (s.targetRotation.2.1 - s.currentRotation.2.1) * smoothing,
     s.currentRotation.2.2 + (s.targetRotation.2.2 - s.currentRotation.2.2) * smoothing)
  let targetDiff := s.targetScale - s.currentScale
  let stepped : ℚ × ℚ :=
    if 1/10000 < |s.scaleVelocity| ∨ 1/10000 < |targetDiff| then
      let scaleSmoothing := min (scaleSmoothingBase * max relScale (5/10)) (5/10)
      let cs1 := s.currentScale + s.scaleVelocity
      let cs2 := cs1 + targetDiff * scaleSmoothing * (3/10)
      let vel1 := s.scaleVelocity * (75/100)
      let vel2 := if |targetDiff| < initialScale * (1/10) then vel1 * (8/10) else vel1
      (cs2, vel2)
    else
      (s.currentScale, s.scaleVelocity)
  let clampedScale :=
    max (extentLo * initialScale) (min (extentHi * initialScale) stepped.1)
  { s with
    currentRotation := next
    currentScale := clampedScale
    scaleVelocity := stepped.2 }

/-- The interaction events that touch the zoom scale state: a wheel
event with its deltaY, or one animation-loop frame. -/
inductive ZoomEvent where
  | wheel (deltaY : ℚ)
  | frame
  deriving DecidableEq

/-- Dispatch one event to its handler. -/
def zoomStep (initialScale extentLo extentHi : ℚ) (e : ZoomEvent)
    (s : ZoomState) : ZoomState :=
  match e with
  | .wheel deltaY => handleWheel initialScale extentLo extentHi deltaY s
  | .frame => frameStep initialScale extentLo extentHi s

/-- Run a sequence of wheel events and animation frames. -/
def runZoom (initialScale extentLo extentHi : ℚ) (events : List ZoomEvent)
    (s : ZoomState) : ZoomState :=
  events.foldl (fun st e => zoomStep initialScale extentLo extentHi e st) s

end GeoZoomService

namespace TissotIndicatrixService

/-- A d3 forward projection: longitude and latitude to planar
coordinates, or none where the library returns null or NaN
coordinates.  The projection implementation lives in the d3 library,
outside the repository. -/
def Projection : Type := ℝ → ℝ → Option (ℝ × ℝ)

/-- EPSILON field of TissotIndicatrixService (1e-6). -/
noncomputable def EPSILON : ℝ := 1/1000000

/-- EARTH_RADIUS field of TissotIndicatrixService (6371008.8 meters). -/
noncomputable def EARTH_RADIUS : ℝ := 63710088/10

/-- RAD2DEG field of TissotIndicatrixService (180 / pi). -/
noncomputable def RAD2DEG : ℝ := 180 / Real.pi

/-- The TissotIndicatrixConfig interface (all four settings resolved,
defaults already merged in). -/
structure TissotIndicatrixConfig where
  gridSpacing : ℝ
  circleRadius : ℝ
  fillOpacity : ℝ
  strokeWidth : ℝ

/-- The default settings object of generateTissotCircles. -/
noncomputable def defaultConfig : TissotIndicatrixConfig :=
  { gridSpacing := 10, circleRadius := 50000, fillOpacity := 3/10,
    strokeWidth := 1 }

/-- The TissotCircle interface. -/
structure TissotCircle where
  longitude : ℝ
  latitude : ℝ
  majorAxis : ℝ
  minorAxis : ℝ
  angle : ℝ

/-- JavaScript Math.atan2 (library function used for the ellipse
rotation angle). -/
noncomputable def atan2 (y x : ℝ) : ℝ :=
  if 0 < x then Real.arctan (y / x)
  else if x < 0 ∧ 0 ≤ y then Real.arctan (y / x) + Real.pi
  else if x < 0 then Real.arctan (y / x) - Real.pi
  else if 0 < y then Real.pi / 2
  else if y < 0 then -(Real.pi / 2)
  else 0

/-- The finite-difference Jacobian and metric tensor computed at the
start of TissotIndicatrixService.calculateTissotIndicatrix: project the
center and the two EPSILON-shifted points, then return
(a, b, c) with a, c the squared tangent lengths and b their inner
product.  None when any of the three projected points is missing. -/
noncomputable def metricTensor (proj : Projection) (lon lat : ℝ) :
    Option (ℝ × ℝ × ℝ) :=
  match proj lon lat, proj (lon + EPSILON) lat, proj lon (lat + EPSILON) with
  | some centerPoint, some eastPoint, some northPoint =>
    let dx_dlon := (eastPoint.1 - centerPoint.1) / EPSILON
    let dy_dlon := (eastPoint.2 - centerPoint.2) / EPSILON
    let dx_dlat := (northPoint.1 - centerPoint.1) / EPSILON
    let dy_dlat := (northPoint.2 - centerPoint.2) / EPSILON
    let a := dx_dlon * dx_dlon + dy_dlon * dy_dlon
    let c := dx_dlat * dx_dlat + dy_dlat * dy_dlat
    let b := dx_dlon * dx_dlat + dy_dlon * dy_dlat
    some (a, b, c)
  | _, _, _ => none

/-- TissotIndicatrixService.calculateTissotIndicatrix: reject degenerate
metric tensors (nonpositive determinant, negative trace, negative
eigenvalue discriminant), otherwise build the distortion ellipse from
the eigenvalues. -/
noncomputable def calculateTissotIndicatrix (proj : Projection)
    (lon lat radiusMeters : ℝ) : Option TissotCircle :=
  match metricTensor proj lon lat with
  | none => none
  | some abc =>
    let a := abc.1
    let b := abc.2.1
    let c := abc.2.2
    let trace := a + c
    let determinant := a * c - b * b
    if determinant ≤ 0 ∨ trace < 0 then none
    else
      let discriminant := trace * trace / 4 - determinant
      if discriminant < 0 then none
      else
        let lambda1 := trace / 2 + Real.sqrt discriminant
        let lambda2 := trace / 2 - Real.sqrt discriminant
        let angularDeg := radiusMeters / EARTH_RADIUS * RAD2DEG
        let majorAxis := Real.sqrt lambda1 * angularDeg
        let minorAxis := Real.sqrt lambda2 * angularDeg
        let angle :=
          if 1/10000000000 < |b| then atan2 b ((a - c) / 2) / 2 else 0
        some ⟨lon, lat, majorAxis, minorAxis, angle⟩

/-- The latitude loop of generateTissotCircles: latitudes from
-90 + gridSpacing upward while below 90.  The JavaScript loop does not
terminate for a nonpositive spacing, so the embedding carries a
positivity witness. -/
noncomputable def latGrid (s : ℝ) (hs : 0 < s) (lat : ℝ) : List ℝ :=
  if lat < 90 then lat :: latGrid s hs (lat + s) else []
termination_by (⌈(90 - lat) / s⌉).toNat
decreasing_by
  have hs0 : s ≠ 0 := ne_of_gt hs
  have h1 : (90 - (lat + s)) / s = (90 - lat) / s - 1 := by
    field_simp
    ring
  have h2 : (0:ℝ) < (90 - lat) / s := div_pos (by linarith) hs
  have h3 : 0 < ⌈(90 - lat) / s⌉ := Int.ceil_pos.mpr h2
  rw [h1]
  rw [show ((1:ℝ) = ((1:ℤ):ℝ)) from by norm_num, Int.ceil_sub_int]
  omega

/-- The longitude loop of generateTissotCircles: longitudes from -180
upward while below 180. -/
noncomputable def lonGrid (s : ℝ) (hs : 0 < s) (lon : ℝ) : List ℝ :=
  if lon < 180 then lon :: lonGrid s hs (lon + s) else []
termination_by (⌈(180 - lon) / s⌉).toNat
decreasing_by
  have hs0 : s ≠ 0 := ne_of_gt hs
  have h1 : (180 - (lon + s)) / s = (180 - lon) / s - 1 := by
    field_simp
    ring
  have h2 : (0:ℝ) < (180 - lon) / s := div_pos (by linarith) hs
  have h3 : 0 < ⌈(180 - lon) / s⌉ := Int.ceil_pos.mpr h2
  rw [h1]
  rw [show ((1:ℝ) = ((1:ℤ):ℝ)) from by norm_num, Int.ceil_sub_int]
  omega

/-- TissotIndicatrixService.generateTissotCircles: walk the lon/lat
grid, keep the samples where calculateTissotIndicatrix succeeds, in the
push order of the nested loops. -/
noncomputable def generateTissotCircles (proj : Projection)
    (config : TissotIndicatrixConfig) : List TissotCircle :=
  if hs : 0 < config.gridSpacing then
    (latGrid config.gridSpacing hs (-90 + config.gridSpacing)).flatMap
      (fun lat =>
        (lonGrid config.gridSpacing hs (-180)).filterMap
          (fun lon =>
            calculateTissotIndicatrix proj lon lat config.circleRadius))
  else []

end TissotIndicatrixService

namespace ReprojectionService

/-- A canvas ImageData: width, height and the RGBA bytes, addressed by
pixel column, pixel row and channel (JavaScript stores channel c of
pixel (x, y) at flat index (y * width + x) * 4 + c). -/
structure ImageData where
  width : ℕ
  height : ℕ
  data : ℕ → ℕ → Fin 4 → ℕ

/-- The inverse of the target equirectangular projection built by d3
(library code outside the repository): planar point to longitude and
latitude, or none where the library returns null. -/
def InvertFn : Type := ℝ × ℝ → Option (ℝ × ℝ)

/-- The body of the per-pixel loop of
ReprojectionService.reprojectMercatorToEquirectangular: invert the
target pixel, reject out-of-domain coordinates, convert to Web Mercator
source coordinates, bounds-check, and sample the nearest source pixel.
None encodes the continue statements (the pixel keeps its
zero-initialized RGBA bytes). -/
noncomputable def reprojectPixelNearest (invert : InvertFn)
    (sourceData : ImageData) (x y : ℕ) : Option (Fin 4 → ℕ) :=
  match invert ((x : ℝ), (y : ℝ)) with
  | none => none
  | some lonLat =>
    let lon := lonLat.1
    let lat := lonLat.2
    if lat < -85 ∨ 85 < lat then none
    else if lon < -180 ∨ 180 < lon then none
    else
      let srcWidth : ℝ := sourceData.width
      let srcHeight : ℝ := sourceData.height
      let mercX := (lon + 180) / 360 * srcWidth
      let latRad := lat * Real.pi / 180
      let mercY :=
        (1 - Real.log (Real.tan (Real.pi / 4 + latRad / 2)) / Real.pi) / 2
          * srcHeight
      if mercX < 0 ∨ srcWidth ≤ mercX ∨ mercY < 0 ∨ srcHeight ≤ mercY then none
      else
        let srcX := (⌊mercX⌋).toNat
        let srcY := (⌊mercY⌋).toNat
        some (fun c => sourceData.data srcX srcY c)

/-- ReprojectionService.reprojectMercatorToEquirectangular (image
contents; the timing side channel is not modelled).  The target
ImageData starts out all zero and the loop only writes pixels for which
reprojectPixelNearest succeeds. -/
noncomputable def reprojectMercatorToEquirectangular (invert : InvertFn)
    (sourceData : ImageData) (targetWidth targetHeight : ℕ) : ImageData :=
  { width := targetWidth
    height := targetHeight
    data := fun x y c =>
      if x < targetWidth ∧ y < targetHeight then
        match reprojectPixelNearest invert sourceData x y with
        | none => 0
        | some px => px c
      else 0 }

/-- The body of the per-pixel loop of
ReprojectionService.reprojectWithBilinear: same inversion and domain
checks, tighter bounds check, then bilinear interpolation of the four
surrounding source pixels with Math.round on each channel. -/
noncomputable def reprojectPixelBilinear (invert : InvertFn)
    (sourceData : ImageData) (x y : ℕ) : Option (Fin 4 → ℕ) :=
  match invert ((x : ℝ), (y : ℝ)) with
  | none => none
  | some lonLat =>
    let lon := lonLat.1
    let lat := lonLat.2
    if lat < -85 ∨ 85 < lat ∨ lon < -180 ∨ 180 < lon then none
    else
      let srcWidth : ℝ := sourceData.width
      let srcHeight : ℝ := sourceData.height
      let mercX := (lon + 180) / 360 * srcWidth
      let latRad := lat * Real.pi / 180
      let mercY :=
        (1 - Real.log (Real.tan (Real.pi / 4 + latRad / 2)) / Real.pi) / 2
          * srcHeight
      if mercX < 0 ∨ srcWidth - 1 ≤ mercX ∨ mercY < 0 ∨ srcHeight - 1 ≤ mercY
      then none
      else
        let x0 := (⌊mercX⌋).toNat
        let y0 := (⌊mercY⌋).toNat
        let x1 := x0 + 1
        let y1 := y0 + 1
        let xFrac := mercX - ((⌊mercX⌋ : ℤ) : ℝ)
        let yFrac := mercY - ((⌊mercY⌋ : ℤ) : ℝ)
        some (fun c =>
          let v00 : ℝ := sourceData.data x0 y0 c
          let v10 : ℝ := sourceData.data x1 y0 c
          let v01 : ℝ := sourceData.data x0 y1 c
          let v11 : ℝ := sourceData.data x1 y1 c
          let v0 := v00 + (v10 - v00) * xFrac
          let v1 := v01 + (v11 - v01) * xFrac
          (round (v0 + (v1 - v0) * yFrac)).toNat)

/-- ReprojectionService.reprojectWithBilinear (image contents). -/
noncomputable def reprojectWithBilinear (invert : InvertFn)
    (sourceData : ImageData) (targetWidth targetHeight : ℕ) : ImageData :=
  { width := targetWidth
    height := targetHeight
    data := fun x y c =>
      if x < targetWidth ∧ y < targetHeight then
        match reprojectPixelBilinear invert sourceData x y with
        | none => 0
        | some px => px c
      else 0 }

/-- All four RGBA bytes of a pixel are zero (in particular alpha,
channel 3). -/
def isTransparent (img : ImageData) (x y : ℕ) : Prop :=
  img.data x y 0 = 0 ∧ img.data x y 1 = 0 ∧ img.data x y 2 = 0 ∧
    img.data x y 3 = 0

end ReprojectionService

section WitnessSupport

/-- A synthetic ten-frame history: 30 fps and 5 ms reprojection time per
frame. -/
def syntheticHistory : List MetricsService.FrameMetrics :=
  List.replicate 10 { frameTime := 100/3, fps := 30, reprojectionTime := 5,
                      timestamp := 0 }

/-- The identity plane map as a projection (used to instantiate theorems
about the Tissot engine on a concrete input). -/
def projId : TissotIndicatrixService.Projection := fun lon lat => some (lon, lat)

/-- A concrete Tissot configuration with a coarse grid. -/
noncomputable def witnessTissotConfig : TissotIndicatrixService.TissotIndicatrixConfig :=
  { gridSpacing := 100, circleRadius := 1, fillOpacity := 3/10, strokeWidth := 1 }

/-- The angular radius in degrees of a 1 meter circle. -/
noncomputable def witnessAngularDeg : ℝ :=
  1 / TissotIndicatrixService.EARTH_RADIUS * TissotIndicatrixService.RAD2DEG

/-- The first Tissot sample produced by projId on the coarse grid. -/
noncomputable def witnessTissotCircle : TissotIndicatrixService.TissotCircle :=
  { longitude := -180, latitude := 10, majorAxis := witnessAngularDeg,
    minorAxis := witnessAngularDeg, angle := 0 }

/-- A target-projection inverse that sends every pixel to latitude 100,
outside the Mercator domain. -/
def witnessInvert : ReprojectionService.InvertFn := fun _ => some (0, 100)

/-- A one-pixel source image whose bytes are all 7. -/
def witnessSource : ReprojectionService.ImageData :=
  { width := 1, height := 1, data := fun _ _ _ => 7 }

end WitnessSupport

section MetricsTheorems

/-- Folding addition over a list whose mapped values are all the same
constant sums to that constant times the length. -/
theorem foldl_add_map_const {α : Type} (f : α → ℚ) (cst : ℚ) :
    ∀ (l : List α) (acc : ℚ), (∀ m ∈ l, f m = cst) →
      (l.map f).foldl (· + ·) acc = acc + cst * l.length := by
  intro l
  induction l with
  | nil => intro acc _; simp
  | cons x xs ih =>
    intro acc h
    simp only [List.map_cons, List.foldl_cons, List.length_cons]
    rw [h x (by simp), ih (acc + cst) (fun m hm => h m (by simp [hm]))]
    push_cast
    ring

/-- C7 counterexample: stopping a benchmark with an empty frame history
does not zero the duration field; it reports the elapsed wall-clock
time (here 7/2 ms). -/
theorem c7_empty_history_duration_not_zero :
    (MetricsService.stopBenchmark [] "bench" 2 3 (7/2)).duration ≠ 0 := by
  norm_num [MetricsService.stopBenchmark]

/-- C7 (amended): stopping a benchmark with an empty frame history
yields zero for every aggregate field (avgFps, minFps, maxFps,
avgFrameTime, avgReprojectionTime, frameCount) and passesTarget false,
while the duration field carries the elapsed wall-clock time. -/
theorem c7_empty_history_result (testName : String) (width height duration : ℚ) :
    (MetricsService.stopBenchmark [] testName width height duration).avgFps = 0 ∧
    (MetricsService.stopBenchmark [] testName width height duration).minFps = 0 ∧
    (MetricsService.stopBenchmark [] testName width height duration).maxFps = 0 ∧
    (MetricsService.stopBenchmark [] testName width height duration).avgFrameTime = 0 ∧
    (MetricsService.stopBenchmark [] testName width height duration).avgReprojectionTime = 0 ∧
    (MetricsService.stopBenchmark [] testName width height duration).frameCount = 0 ∧
    (MetricsService.stopBenchmark [] testName width height duration).duration = duration ∧
    (MetricsService.stopBenchmark [] testName width height duration).passesTarget = false := by
  norm_num [MetricsService.stopBenchmark]

/-- C8: a ten-frame history at exactly 30 fps with 5 ms reprojection
time per frame aggregates to avgFps 30, passesTarget true and
avgReprojectionTime 5. -/
theorem c8_synthetic_history_aggregates
    (l : List MetricsService.FrameMetrics) (testName : String)
    (width height duration : ℚ)
    (hfps : l.map (·.fps) = List.replicate 10 30)
    (hrt : l.map (·.reprojectionTime) = List.replicate 10 5) :
    (MetricsService.stopBenchmark l testName width height duration).avgFps = 30 ∧
    (MetricsService.stopBenchmark l testName width height duration).passesTarget = true ∧
    (MetricsService.stopBenchmark l testName width height duration).avgReprojectionTime = 5 := by
  have hlen : l.length = 10 := by
    have := congrArg List.length hfps
    simpa using this
  have hne : ¬(l = []) := by
    intro h
    rw [h] at hlen
    simp at hlen
  have hfps2 : ∀ m ∈ l, m.fps = 30 := by
    intro m hm
    exact List.eq_of_mem_replicate (hfps ▸ List.mem_map_of_mem (fun m : MetricsService.FrameMetrics => m.fps) hm)
  have hrt2 : ∀ m ∈ l, m.reprojectionTime = 5 := by
    intro m hm
    exact List.eq_of_mem_replicate (hrt ▸ List.mem_map_of_mem (fun m : MetricsService.FrameMetrics => m.reprojectionTime) hm)
  have hsum1 : MetricsService.sumList (l.map (·.fps)) = 300 := by
    unfold MetricsService.sumList
    rw [foldl_add_map_const (·.fps) 30 l 0 hfps2, hlen]
    norm_num
  have hsum2 : MetricsService.sumList (l.map (·.reprojectionTime)) = 50 := by
    unfold MetricsService.sumList
    rw [foldl_add_map_const (·.reprojectionTime) 5 l 0 hrt2, hlen]
    norm_num
  unfold MetricsService.stopBenchmark
  rw [if_neg hne]
  simp only [List.length_map, hlen, hsum1, hsum2]
  norm_num [MetricsService.jsRound, round_eq]

/-- C8 witness data: the synthetic history satisfies the hypotheses. -/
theorem c8_witness :
    syntheticHistory.map (·.fps) = List.replicate 10 30 ∧
    syntheticHistory.map (·.reprojectionTime) = List.replicate 10 5 ∧
    (MetricsService.stopBenchmark syntheticHistory "bench" 800 600 1000).avgFps = 30 ∧
    (MetricsService.stopBenchmark syntheticHistory "bench" 800 600 1000).passesTarget = true ∧
    (MetricsService.stopBenchmark syntheticHistory "bench" 800 600 1000).avgReprojectionTime = 5 := by
  have h1 : syntheticHistory.map (·.fps) = List.replicate 10 30 := by
    simp [syntheticHistory]
  have h2 : syntheticHistory.map (·.reprojectionTime) = List.replicate 10 5 := by
    simp [syntheticHistory]
  obtain ⟨a, b, c⟩ :=
    c8_synthetic_history_aggregates syntheticHistory "bench" 800 600 1000 h1 h2
  exact ⟨h1, h2, a, b, c⟩

end MetricsTheorems

section SelectorTheorems

open ProjectionSelectorService

/-- C2: the ordered selection rule of selectOptimalProjection, stated on
the effective scale e obtained after hysteresis and the viewport center
latitude: orthographic below 0.8, naturalEarth1 on [0.8, 1.5), for
local views (e above 6) stereographic above 70 degrees of latitude and
mercator otherwise, and for regional views azimuthalEqualArea above 60
degrees, conicEqualArea on (20, 60], naturalEarth1 otherwise. -/
theorem c2_selection_rule (lastChangeScale : ℚ) (v : ViewportState)
    (e lat : ℚ) (he : e = applyHysteresis lastChangeScale v.scale)
    (hlat : lat = v.center.2) :
    (e < 4/5 →
      (selectOptimalProjection lastChangeScale v).projectionType = .orthographic) ∧
    (4/5 ≤ e → e < 3/2 →
      (selectOptimalProjection lastChangeScale v).projectionType = .naturalEarth1) ∧
    (6 < e → 70 < |lat| →
      (selectOptimalProjection lastChangeScale v).projectionType = .stereographic) ∧
    (6 < e → |lat| ≤ 70 →
      (selectOptimalProjection lastChangeScale v).projectionType = .mercator) ∧
    (3/2 ≤ e → e ≤ 6 → 60 < |lat| →
      (selectOptimalProjection lastChangeScale v).projectionType = .azimuthalEqualArea) ∧
    (3/2 ≤ e → e ≤ 6 → 20 < |lat| → |lat| ≤ 60 →
      (selectOptimalProjection lastChangeScale v).projectionType = .conicEqualArea) ∧
    (3/2 ≤ e → e ≤ 6 → |lat| ≤ 20 →
      (selectOptimalProjection lastChangeScale v).projectionType = .naturalEarth1) := by
  subst he hlat
  unfold selectOptimalProjection
  set e := applyHysteresis lastChangeScale v.scale with hE
  set lat := v.center.2 with hLat
  simp only [scaleThresholdGlobal, scaleThresholdRegional]
  refine ⟨?_, ?_, ?_, ?_, ?_, ?_, ?_⟩
  · intro h
    rw [if_pos (show e < 3/2 by linarith), if_pos h]
  · intro h1 h2
    rw [if_pos h2, if_neg (by linarith)]
  · intro h1 h2
    rw [if_neg (by linarith), if_pos h1, if_pos h2]
  · intro h1 h2
    rw [if_neg (by linarith), if_pos h1, if_neg (by linarith)]
  · intro h1 h2 h3
    rw [if_neg (by linarith), if_neg (by linarith), if_pos h3]
  · intro h1 h2 h3 h4
    rw [if_neg (by linarith), if_neg (by linarith), if_neg (by linarith),
      if_pos ⟨h3, h4⟩]
  · intro h1 h2 h3
    rw [if_neg (by linarith), if_neg (by linarith), if_neg (by linarith),
      if_neg (by simp; intro h; linarith)]

/-- C2 witness: a regional mid-latitude viewport (scale 3, latitude 40,
last change scale 5) is classified conicEqualArea, and the other six
branch hypotheses are exercised at the single point where they apply. -/
theorem c2_witness :
    ((3:ℚ)/2 ≤ 3 ∧ (3:ℚ) ≤ 6 ∧ (20:ℚ) < |(40:ℚ)| ∧ |(40:ℚ)| ≤ 60) ∧
    (3:ℚ) = applyHysteresis 5 3 ∧
    (selectOptimalProjection 5 ⟨(0, 40), 3, 800, 600⟩).projectionType =
      .conicEqualArea := by
  have he : (3:ℚ) = applyHysteresis 5 3 := by
    norm_num [applyHysteresis, hysteresis, abs_of_nonpos]
  have h := c2_selection_rule 5 ⟨(0, 40), 3, 800, 600⟩ 3 40 he rfl
  refine ⟨⟨by norm_num, by norm_num, by norm_num, by norm_num⟩, he, ?_⟩
  exact h.2.2.2.2.2.1 (by norm_num) (by norm_num) (by norm_num) (by norm_num)

/-- C5: when the viewport scale is within the hysteresis band of the
last classification-triggering scale, the selector classifies with the
last-change scale, so two calls whose scales both sit inside the band
return identical recommendations. -/
theorem c5_hysteresis_stability (lastChangeScale s1 s2 : ℚ) (v : ViewportState)
    (h1 : |s1 - lastChangeScale| < hysteresis)
    (h2 : |s2 - lastChangeScale| < hysteresis) :
    applyHysteresis lastChangeScale s1 = lastChangeScale ∧
    selectOptimalProjection lastChangeScale { v with scale := s1 } =
      selectOptimalProjection lastChangeScale { v with scale := lastChangeScale } ∧
    selectOptimalProjection lastChangeScale { v with scale := s1 } =
      selectOptimalProjection lastChangeScale { v with scale := s2 } := by
  have key : ∀ s : ℚ, |s - lastChangeScale| < hysteresis →
      applyHysteresis lastChangeScale s = lastChangeScale := by
    intro s hs
    unfold applyHysteresis
    rw [if_pos hs]
  have hself : applyHysteresis lastChangeScale lastChangeScale = lastChangeScale := by
    apply key
    simp [hysteresis]
  constructor
  · exact key s1 h1
  constructor
  · unfold selectOptimalProjection
    simp only [key s1 h1, hself]
  · unfold selectOptimalProjection
    simp only [key s1 h1, key s2 h2]

/-- C5 witness: scales 1.1 and 0.9 around a last-change scale of 1 are
both inside the 0.3 hysteresis band and yield the same recommendation. -/
theorem c5_witness :
    |(11:ℚ)/10 - 1| < hysteresis ∧ |(9:ℚ)/10 - 1| < hysteresis ∧
    applyHysteresis 1 (11/10) = 1 ∧
    selectOptimalProjection 1 ⟨(0, 0), 11/10, 800, 600⟩ =
      selectOptimalProjection 1 ⟨(0, 0), 9/10, 800, 600⟩ := by
  have p1 : |(11:ℚ)/10 - 1| < hysteresis := by norm_num [hysteresis, abs_lt]
  have p2 : |(9:ℚ)/10 - 1| < hysteresis := by norm_num [hysteresis, abs_lt]
  have h := c5_hysteresis_stability 1 (11/10) (9/10) ⟨(0, 0), 11/10, 800, 600⟩ p1 p2
  exact ⟨p1, p2, h.1, h.2.2⟩

/-- C9: the automatic selector only ever recommends one of six
projection types; equirectangular, albers and albersUsa are listed in
the projection catalog but are never recommended. -/
theorem c9_recommendation_range (lastChangeScale : ℚ) (v : ViewportState) :
    (selectOptimalProjection lastChangeScale v).projectionType ∈
      [ProjectionType.orthographic, .naturalEarth1, .stereographic, .mercator,
       .azimuthalEqualArea, .conicEqualArea] ∧
    ProjectionType.equirectangular ∈ projectionConfigs.map Prod.fst ∧
    ProjectionType.albers ∈ projectionConfigs.map Prod.fst ∧
    ProjectionType.albersUsa ∈ projectionConfigs.map Prod.fst := by
  refine ⟨?_, by simp [projectionConfigs], by simp [projectionConfigs],
    by simp [projectionConfigs]⟩
  simp only [selectOptimalProjection]
  split_ifs <;> simp

end SelectorTheorems

section TransitionTheorems

open ProjectionTransitionService

/-- The first normalization loop never returns a value above 180. -/
theorem reduceAbove_le (angle : ℚ) : reduceAbove angle ≤ 180 := by
  induction angle using reduceAbove.induct with
  | case1 a h ih =>
    rw [reduceAbove, if_pos h]
    exact ih
  | case2 a h =>
    rw [reduceAbove, if_neg h]
    linarith

/-- The first normalization loop shifts its input by a whole number of
turns. -/
theorem reduceAbove_shift (angle : ℚ) :
    ∃ k : ℤ, reduceAbove angle = angle - 360 * k := by
  induction angle using reduceAbove.induct with
  | case1 a h ih =>
    obtain ⟨k, hk⟩ := ih
    refine ⟨k + 1, ?_⟩
    rw [reduceAbove, if_pos h, hk]
    push_cast
    ring
  | case2 a h =>
    refine ⟨0, ?_⟩
    rw [reduceAbove, if_neg h]
    norm_num

/-- The second normalization loop never returns a value below -180. -/
theorem reduceBelow_ge (angle : ℚ) : -180 ≤ reduceBelow angle := by
  induction angle using reduceBelow.induct with
  | case1 a h ih =>
    rw [reduceBelow, if_pos h]
    exact ih
  | case2 a h =>
    rw [reduceBelow, if_neg h]
    linarith

/-- The second normalization loop preserves an upper bound of 180. -/
theorem reduceBelow_le (angle : ℚ) : angle ≤ 180 → reduceBelow angle ≤ 180 := by
  induction angle using reduceBelow.induct with
  | case1 a h1 ih =>
    intro _
    rw [reduceBelow, if_pos h1]
    exact ih (by linarith)
  | case2 a h1 =>
    intro ha
    rw [reduceBelow, if_neg h1]
    exact ha

/-- The second normalization loop shifts its input by a whole number of
turns. -/
theorem reduceBelow_shift (angle : ℚ) :
    ∃ k : ℤ, reduceBelow angle = angle + 360 * k := by
  induction angle using reduceBelow.induct with
  | case1 a h ih =>
    obtain ⟨k, hk⟩ := ih
    refine ⟨k + 1, ?_⟩
    rw [reduceBelow, if_pos h, hk]
    push_cast
    ring
  | case2 a h =>
    refine ⟨0, ?_⟩
    rw [reduceBelow, if_neg h]
    norm_num

/-- normalizeAngle lands in [-180, 180]. -/
theorem normalizeAngle_mem (angle : ℚ) :
    -180 ≤ normalizeAngle angle ∧ normalizeAngle angle ≤ 180 :=
  ⟨reduceBelow_ge _, reduceBelow_le _ (reduceAbove_le angle)⟩

/-- normalizeAngle is congruent to its input modulo 360. -/
theorem normalizeAngle_shift (angle : ℚ) :
    ∃ k : ℤ, angle - normalizeAngle angle = 360 * k := by
  obtain ⟨k1, h1⟩ := reduceAbove_shift angle
  obtain ⟨k2, h2⟩ := reduceBelow_shift (reduceAbove angle)
  refine ⟨k1 - k2, ?_⟩
  unfold normalizeAngle
  rw [h2, h1]
  push_cast
  ring

end TransitionTheorems

/-- Evaluation of the normalization loops at 170 degrees. -/
theorem normalizeAngle_at_170 :
    ProjectionTransitionService.normalizeAngle 170 = 170 := by
  unfold ProjectionTransitionService.normalizeAngle
  rw [ProjectionTransitionService.reduceAbove]
  norm_num
  rw [ProjectionTransitionService.reduceBelow]
  norm_num

/-- Evaluation of the normalization loops at -170 degrees. -/
theorem normalizeAngle_at_neg170 :
    ProjectionTransitionService.normalizeAngle (-170) = -170 := by
  unfold ProjectionTransitionService.normalizeAngle
  rw [ProjectionTransitionService.reduceAbove]
  norm_num
  rw [ProjectionTransitionService.reduceBelow]
  norm_num

/-- C3 counterexample: in the transition, the second rotation component
is interpolated linearly, so going from 170 to -170 at t = 1/2 passes
through 0, not 180 or -180, contradicting the claim that rotation
angles are never interpolated as raw values. -/
theorem c3_second_rotation_component_linear :
    (ProjectionTransitionService.interpolateRotation (0, 170, 0) (0, -170, 0)
      (1/2)).2.1 = 0 ∧
    (ProjectionTransitionService.interpolateRotation (0, 170, 0) (0, -170, 0)
      (1/2)).2.1 ≠ 180 ∧
    (ProjectionTransitionService.interpolateRotation (0, 170, 0) (0, -170, 0)
      (1/2)).2.1 ≠ -180 := by
  norm_num [ProjectionTransitionService.interpolateRotation,
    ProjectionTransitionService.interpolateValue]

/-- C3 (amended): the first rotation component is interpolated with
wraparound handling — both endpoints are normalized into [-180, 180],
the interpolation delta is congruent to their difference modulo 360
with magnitude at most 180, and interpolating 170 to -170 at t = 1/2
yields 180 — while the second and third rotation components use plain
linear interpolation. -/
theorem c3_first_rotation_component_wraparound :
    (∀ a b t : ℚ, ∃ d : ℚ, |d| ≤ 180 ∧
      (∃ k : ℤ, (ProjectionTransitionService.normalizeAngle b -
        ProjectionTransitionService.normalizeAngle a) - d = 360 * k) ∧
      ProjectionTransitionService.interpolateAngle a b t =
        ProjectionTransitionService.normalizeAngle a + d * t) ∧
    (∀ a : ℚ, -180 ≤ ProjectionTransitionService.normalizeAngle a ∧
      ProjectionTransitionService.normalizeAngle a ≤ 180 ∧
      ∃ k : ℤ, a - ProjectionTransitionService.normalizeAngle a = 360 * k) ∧
    ProjectionTransitionService.interpolateAngle 170 (-170) (1/2) = 180 ∧
    (∀ (fr tr : ℚ × ℚ × ℚ) (t : ℚ),
      ProjectionTransitionService.interpolateRotation fr tr t =
        (ProjectionTransitionService.interpolateAngle fr.1 tr.1 t,
         ProjectionTransitionService.interpolateValue fr.2.1 tr.2.1 t,
         ProjectionTransitionService.interpolateValue fr.2.2 tr.2.2 t)) := by
  refine ⟨?_, ?_, ?_, ?_⟩
  · intro a b t
    have hA := normalizeAngle_mem a
    have hB := normalizeAngle_mem b
    by_cases h1 : 180 < ProjectionTransitionService.normalizeAngle b -
        ProjectionTransitionService.normalizeAngle a
    · refine ⟨ProjectionTransitionService.normalizeAngle b -
        ProjectionTransitionService.normalizeAngle a - 360, ?_, ⟨1, by push_cast; ring⟩, ?_⟩
      · rw [abs_le]
        constructor <;> linarith [hA.1, hA.2, hB.1, hB.2]
      · simp only [ProjectionTransitionService.interpolateAngle]
        rw [if_pos h1, if_neg (by linarith)]
    · by_cases h2 : ProjectionTransitionService.normalizeAngle b -
          ProjectionTransitionService.normalizeAngle a < -180
      · refine ⟨ProjectionTransitionService.normalizeAngle b -
          ProjectionTransitionService.normalizeAngle a + 360, ?_, ⟨-1, by push_cast; ring⟩, ?_⟩
        · rw [abs_le]
          constructor <;> linarith [hA.1, hA.2, hB.1, hB.2]
        · simp only [ProjectionTransitionService.interpolateAngle]
          rw [if_neg h1, if_pos h2]
      · refine ⟨ProjectionTransitionService.normalizeAngle b -
          ProjectionTransitionService.normalizeAngle a, ?_, ⟨0, by push_cast; ring⟩, ?_⟩
        · rw [abs_le]
          constructor <;> linarith
        · simp only [ProjectionTransitionService.interpolateAngle]
          rw [if_neg h1, if_neg h2]
  · intro a
    exact ⟨(normalizeAngle_mem a).1, (normalizeAngle_mem a).2, normalizeAngle_shift a⟩
  · simp only [ProjectionTransitionService.interpolateAngle,
      normalizeAngle_at_170, normalizeAngle_at_neg170]
    norm_num
  · intro fr tr t
    rfl

section ZoomTheorems

open GeoZoomService

/-- Every animation frame leaves the current scale inside the
configured extent (the clamp is the last scale write of the frame). -/
theorem frameStep_scale_mem (initialScale extentLo extentHi : ℚ)
    (s : ZoomState) (hle : extentLo * initialScale ≤ extentHi * initialScale) :
    extentLo * initialScale ≤
      (frameStep initialScale extentLo extentHi s).currentScale ∧
    (frameStep initialScale extentLo extentHi s).currentScale ≤
      extentHi * initialScale := by
  unfold frameStep
  refine ⟨le_max_left _ _, ?_⟩
  simp only []
  exact max_le hle (min_le_left _ _)

/-- C4: after any sequence of wheel zoom events and animation frames
that ends with a frame update, the current scale lies inside
[extentLo * initialScale, extentHi * initialScale], hence is strictly
positive. -/
theorem c4_scale_clamped (initialScale extentLo extentHi : ℚ)
    (h1 : 0 < initialScale) (h2 : 0 < extentLo) (h3 : extentLo ≤ extentHi)
    (events : List ZoomEvent) (s : ZoomState) :
    extentLo * initialScale ≤
      (runZoom initialScale extentLo extentHi (events ++ [.frame]) s).currentScale ∧
    (runZoom initialScale extentLo extentHi (events ++ [.frame]) s).currentScale ≤
      extentHi * initialScale ∧
    0 < (runZoom initialScale extentLo extentHi (events ++ [.frame]) s).currentScale := by
  have hle : extentLo * initialScale ≤ extentHi * initialScale :=
    mul_le_mul_of_nonneg_right h3 (le_of_lt h1)
  have hpos : 0 < extentLo * initialScale := mul_pos h2 h1
  unfold runZoom
  rw [List.foldl_append]
  simp only [List.foldl_cons, List.foldl_nil]
  set s1 := List.foldl
    (fun st e => zoomStep initialScale extentLo extentHi e st) s events
  have hmem := frameStep_scale_mem initialScale extentLo extentHi s1 hle
  have hz : zoomStep initialScale extentLo extentHi ZoomEvent.frame s1 =
      frameStep initialScale extentLo extentHi s1 := rfl
  rw [hz]
  exact ⟨hmem.1, hmem.2, lt_of_lt_of_le hpos hmem.1⟩

/-- C4 witness: a concrete run with the default extent [0.5, 20], one
wheel event and two frames keeps the scale inside [1/2, 20]. -/
theorem c4_witness :
    (0:ℚ) < 1 ∧ (0:ℚ) < 1/2 ∧ (1:ℚ)/2 ≤ 20 ∧
    ((1:ℚ)/2 * 1 ≤
      (runZoom 1 (1/2) 20 ([.wheel (-3), .frame] ++ [.frame])
        ⟨(0, 0, 0), (0, 0, 0), 1, 1, 0⟩).currentScale ∧
     (runZoom 1 (1/2) 20 ([.wheel (-3), .frame] ++ [.frame])
        ⟨(0, 0, 0), (0, 0, 0), 1, 1, 0⟩).currentScale ≤ 20 * 1 ∧
     0 < (runZoom 1 (1/2) 20 ([.wheel (-3), .frame] ++ [.frame])
        ⟨(0, 0, 0), (0, 0, 0), 1, 1, 0⟩).currentScale) := by
  refine ⟨by norm_num, by norm_num, by norm_num, ?_⟩
  exact c4_scale_clamped 1 (1/2) 20 (by norm_num) (by norm_num) (by norm_num)
    [.wheel (-3), .frame] ⟨(0, 0, 0), (0, 0, 0), 1, 1, 0⟩

end ZoomTheorems

section TissotTheorems

open TissotIndicatrixService

/-- Anatomy of a successful calculateTissotIndicatrix call: the metric
tensor exists, passes the three degeneracy guards, and the sample
records the grid coordinates and the eigenvalue-derived axes. -/
theorem calculateTissotIndicatrix_spec (proj : Projection) (lon lat r : ℝ)
    (c : TissotCircle)
    (h : calculateTissotIndicatrix proj lon lat r = some c) :
    ∃ a b cc, metricTensor proj lon lat = some (a, b, cc) ∧
      0 < a * cc - b * b ∧ 0 ≤ a + cc ∧
      0 ≤ (a + cc) * (a + cc) / 4 - (a * cc - b * b) ∧
      c.longitude = lon ∧ c.latitude = lat ∧
      c.majorAxis = Real.sqrt ((a + cc) / 2 +
        Real.sqrt ((a + cc) * (a + cc) / 4 - (a * cc - b * b))) *
        (r / EARTH_RADIUS * RAD2DEG) ∧
      c.minorAxis = Real.sqrt ((a + cc) / 2 -
        Real.sqrt ((a + cc) * (a + cc) / 4 - (a * cc - b * b))) *
        (r / EARTH_RADIUS * RAD2DEG) := by
  unfold calculateTissotIndicatrix at h
  cases hmt : metricTensor proj lon lat with
  | none =>
    rw [hmt] at h
    simp at h
  | some abc =>
    rw [hmt] at h
    obtain ⟨a, b, cc⟩ := abc
    simp only [] at h
    split_ifs at h with hguard hdisc hangle
    all_goals first
      | exact Option.noConfusion h
      | (push_neg at hguard hdisc
         obtain ⟨hdet, htr⟩ := hguard
         have hc := (Option.some.inj h).symm
         subst hc
         exact ⟨a, b, cc, rfl, hdet, htr, hdisc, rfl, rfl, rfl, rfl⟩)

/-- Every circle in the output of generateTissotCircles comes from a
successful calculateTissotIndicatrix call at some grid point. -/
theorem mem_generateTissotCircles (proj : Projection)
    (config : TissotIndicatrixConfig) (c : TissotCircle)
    (h : c ∈ generateTissotCircles proj config) :
    ∃ lon lat,
      calculateTissotIndicatrix proj lon lat config.circleRadius = some c := by
  unfold generateTissotCircles at h
  by_cases hs : 0 < config.gridSpacing
  · rw [dif_pos hs] at h
    obtain ⟨lat, _, hmem⟩ := List.mem_flatMap.mp h
    obtain ⟨lon, _, heq⟩ := List.mem_filterMap.mp hmem
    exact ⟨lon, lat, heq⟩
  · rw [dif_neg hs] at h
    exact absurd h (List.not_mem_nil c)

/-- C6: every circle emitted by generateTissotCircles passed the
degeneracy guards — its metric tensor has positive determinant,
nonnegative trace and nonnegative eigenvalue discriminant — so grid
samples with a degenerate metric are omitted; and for a nonnegative
configured circle radius no emitted sample has a negative axis
length. -/
theorem c6_degenerate_samples_omitted (proj : Projection)
    (config : TissotIndicatrixConfig) (c : TissotCircle)
    (hr : 0 ≤ config.circleRadius)
    (hmem : c ∈ generateTissotCircles proj config) :
    (∃ a b cc, metricTensor proj c.longitude c.latitude = some (a, b, cc) ∧
      0 < a * cc - b * b ∧ 0 ≤ a + cc ∧
      0 ≤ (a + cc) * (a + cc) / 4 - (a * cc - b * b)) ∧
    0 ≤ c.majorAxis ∧ 0 ≤ c.minorAxis := by
  obtain ⟨lon, lat, heq⟩ := mem_generateTissotCircles proj config c hmem
  obtain ⟨a, b, cc, hmt, hdet, htr, hdisc, hlon, hlat, hmaj, hmin⟩ :=
    calculateTissotIndicatrix_spec proj lon lat config.circleRadius c heq
  have hangular : 0 ≤ config.circleRadius / EARTH_RADIUS * RAD2DEG := by
    apply mul_nonneg
    · apply div_nonneg hr
      norm_num [EARTH_RADIUS]
    · unfold RAD2DEG
      positivity
  refine ⟨⟨a, b, cc, ?_, hdet, htr, hdisc⟩, ?_, ?_⟩
  · rw [hlon, hlat]
    exact hmt
  · rw [hmaj]
    exact mul_nonneg (Real.sqrt_nonneg _) hangular
  · rw [hmin]
    exact mul_nonneg (Real.sqrt_nonneg _) hangular

/-- C10: every circle emitted by generateTissotCircles (for a
nonnegative configured circle radius) has 0 ≤ minorAxis ≤ majorAxis: the
two eigenvalues of the metric tensor are ordered and nonnegative under
the guards, and the axes are their square roots scaled by the common
nonnegative angular factor. -/
theorem c10_axes_ordered (proj : Projection)
    (config : TissotIndicatrixConfig) (c : TissotCircle)
    (hr : 0 ≤ config.circleRadius)
    (hmem : c ∈ generateTissotCircles proj config) :
    0 ≤ c.minorAxis ∧ c.minorAxis ≤ c.majorAxis ∧
    ∃ l1 l2 d : ℝ, 0 ≤ l2 ∧ l2 ≤ l1 ∧ 0 ≤ d ∧
      c.majorAxis = Real.sqrt l1 * d ∧ c.minorAxis = Real.sqrt l2 * d := by
  obtain ⟨lon, lat, heq⟩ := mem_generateTissotCircles proj config c hmem
  obtain ⟨a, b, cc, hmt, hdet, htr, hdisc, hlon, hlat, hmaj, hmin⟩ :=
    calculateTissotIndicatrix_spec proj lon lat config.circleRadius c heq
  set disc := (a + cc) * (a + cc) / 4 - (a * cc - b * b) with hdiscdef
  set l1 := (a + cc) / 2 + Real.sqrt disc with hl1
  set l2 := (a + cc) / 2 - Real.sqrt disc with hl2
  have hsq : Real.sqrt disc * Real.sqrt disc = disc := Real.mul_self_sqrt hdisc
  have hprod : l1 * l2 = a * cc - b * b := by
    rw [hl1, hl2]
    have h9 : ((a + cc) / 2 + Real.sqrt disc) * ((a + cc) / 2 - Real.sqrt disc)
        = ((a + cc) / 2) * ((a + cc) / 2) - Real.sqrt disc * Real.sqrt disc := by
      ring
    rw [h9, hsq, hdiscdef]
    ring
  have hl1nn : 0 ≤ l1 := by
    rw [hl1]
    have := Real.sqrt_nonneg disc
    linarith
  have hl2nn : 0 ≤ l2 := by
    by_contra hneg
    push_neg at hneg
    have : l1 * l2 ≤ 0 := mul_nonpos_of_nonneg_of_nonpos hl1nn (le_of_lt hneg)
    linarith
  have hle : l2 ≤ l1 := by
    rw [hl1, hl2]
    have := Real.sqrt_nonneg disc
    linarith
  have hangular : 0 ≤ config.circleRadius / EARTH_RADIUS * RAD2DEG := by
    apply mul_nonneg
    · apply div_nonneg hr
      norm_num [EARTH_RADIUS]
    · unfold RAD2DEG
      positivity
  refine ⟨?_, ?_, l1, l2, config.circleRadius / EARTH_RADIUS * RAD2DEG,
    hl2nn, hle, hangular, hmaj, hmin⟩
  · rw [hmin]
    exact mul_nonneg (Real.sqrt_nonneg _) hangular
  · rw [hmaj, hmin]
    exact mul_le_mul_of_nonneg_right (Real.sqrt_le_sqrt hle) hangular

/-- The identity projection has the identity metric tensor. -/
theorem metricTensor_projId (lon lat : ℝ) :
    metricTensor projId lon lat = some (1, 0, 1) := by
  unfold metricTensor projId
  simp only [Option.some.injEq, Prod.mk.injEq]
  norm_num [EPSILON]

/-- calculateTissotIndicatrix on the identity projection yields a
circle of the angular radius at every grid point. -/
theorem calculateTissotIndicatrix_projId (lon lat r : ℝ) :
    calculateTissotIndicatrix projId lon lat r =
      some ⟨lon, lat, r / EARTH_RADIUS * RAD2DEG, r / EARTH_RADIUS * RAD2DEG, 0⟩ := by
  unfold calculateTissotIndicatrix
  rw [metricTensor_projId]
  norm_num [Real.sqrt_one, TissotCircle.mk.injEq]

/-- The coarse latitude grid holds the single latitude 10. -/
theorem latGrid_100 (hs : (0:ℝ) < 100) :
    latGrid 100 hs (-90 + 100) = [10] := by
  rw [latGrid, if_pos (by norm_num : (-90 + 100:ℝ) < 90)]
  rw [latGrid, if_neg (by norm_num : ¬(-90 + 100 + 100:ℝ) < 90)]
  norm_num

/-- The coarse longitude grid holds four longitudes. -/
theorem lonGrid_100 (hs : (0:ℝ) < 100) :
    lonGrid 100 hs (-180) = [-180, -80, 20, 120] := by
  rw [lonGrid, if_pos (by norm_num : (-180:ℝ) < 180)]
  rw [lonGrid, if_pos (by norm_num : (-180 + 100:ℝ) < 180)]
  rw [lonGrid, if_pos (by norm_num : (-180 + 100 + 100:ℝ) < 180)]
  rw [lonGrid, if_pos (by norm_num : (-180 + 100 + 100 + 100:ℝ) < 180)]
  rw [lonGrid, if_neg (by norm_num : ¬(-180 + 100 + 100 + 100 + 100:ℝ) < 180)]
  norm_num

/-- Full evaluation of generateTissotCircles on the identity projection
with the coarse configuration. -/
theorem generateTissotCircles_projId_eval :
    generateTissotCircles projId witnessTissotConfig =
      [⟨-180, 10, witnessAngularDeg, witnessAngularDeg, 0⟩,
       ⟨-80, 10, witnessAngularDeg, witnessAngularDeg, 0⟩,
       ⟨20, 10, witnessAngularDeg, witnessAngularDeg, 0⟩,
       ⟨120, 10, witnessAngularDeg, witnessAngularDeg, 0⟩] := by
  unfold generateTissotCircles
  have hs : (0:ℝ) < witnessTissotConfig.gridSpacing := by
    norm_num [witnessTissotConfig]
  rw [dif_pos hs]
  simp only [witnessTissotConfig]
  rw [latGrid_100, lonGrid_100]
  simp [calculateTissotIndicatrix_projId, witnessAngularDeg]

/-- C6 witness: the first coarse-grid sample of the identity projection
instantiates the theorem. -/
theorem c6_witness :
    0 ≤ witnessTissotConfig.circleRadius ∧
    witnessTissotCircle ∈ generateTissotCircles projId witnessTissotConfig ∧
    ((∃ a b cc,
        metricTensor projId witnessTissotCircle.longitude
          witnessTissotCircle.latitude = some (a, b, cc) ∧
        0 < a * cc - b * b ∧ 0 ≤ a + cc ∧
        0 ≤ (a + cc) * (a + cc) / 4 - (a * cc - b * b)) ∧
      0 ≤ witnessTissotCircle.majorAxis ∧ 0 ≤ witnessTissotCircle.minorAxis) := by
  have hr : 0 ≤ witnessTissotConfig.circleRadius := by
    norm_num [witnessTissotConfig]
  have hm : witnessTissotCircle ∈ generateTissotCircles projId witnessTissotConfig := by
    rw [generateTissotCircles_projId_eval]
    simp [witnessTissotCircle]
  exact ⟨hr, hm,
    c6_degenerate_samples_omitted projId witnessTissotConfig witnessTissotCircle hr hm⟩

/-- C10 witness: the same sample instantiates the axis-ordering
theorem. -/
theorem c10_witness :
    0 ≤ witnessTissotConfig.circleRadius ∧
    witnessTissotCircle ∈ generateTissotCircles projId witnessTissotConfig ∧
    (0 ≤ witnessTissotCircle.minorAxis ∧
     witnessTissotCircle.minorAxis ≤ witnessTissotCircle.majorAxis ∧
     ∃ l1 l2 d : ℝ, 0 ≤ l2 ∧ l2 ≤ l1 ∧ 0 ≤ d ∧
       witnessTissotCircle.majorAxis = Real.sqrt l1 * d ∧
       witnessTissotCircle.minorAxis = Real.sqrt l2 * d) := by
  have hr : 0 ≤ witnessTissotConfig.circleRadius := by
    norm_num [witnessTissotConfig]
  have hm : witnessTissotCircle ∈ generateTissotCircles projId witnessTissotConfig := by
    rw [generateTissotCircles_projId_eval]
    simp [witnessTissotCircle]
  exact ⟨hr, hm,
    c10_axes_ordered projId witnessTissotConfig witnessTissotCircle hr hm⟩

end TissotTheorems

section ReprojectionTheorems

open ReprojectionService

/-- If the inverse projection is undefined at a target pixel or yields
out-of-domain coordinates, the nearest-neighbor per-pixel computation
skips the pixel. -/
theorem reprojectPixelNearest_none (invert : InvertFn)
    (sourceData : ImageData) (x y : ℕ)
    (h : invert ((x : ℝ), (y : ℝ)) = none ∨
      ∃ lon lat, invert ((x : ℝ), (y : ℝ)) = some (lon, lat) ∧
        (lat < -85 ∨ 85 < lat ∨ lon < -180 ∨ 180 < lon)) :
    reprojectPixelNearest invert sourceData x y = none := by
  unfold reprojectPixelNearest
  rcases h with h | ⟨lon, lat, heq, hout⟩
  · rw [h]
  · rw [heq]
    dsimp only
    by_cases h1 : lat < -85 ∨ 85 < lat
    · rw [if_pos h1]
    · have h2 : lon < -180 ∨ 180 < lon := by tauto
      rw [if_neg h1, if_pos h2]

/-- Same skip behavior for the bilinear per-pixel computation. -/
theorem reprojectPixelBilinear_none (invert : InvertFn)
    (sourceData : ImageData) (x y : ℕ)
    (h : invert ((x : ℝ), (y : ℝ)) = none ∨
      ∃ lon lat, invert ((x : ℝ), (y : ℝ)) = some (lon, lat) ∧
        (lat < -85 ∨ 85 < lat ∨ lon < -180 ∨ 180 < lon)) :
    reprojectPixelBilinear invert sourceData x y = none := by
  unfold reprojectPixelBilinear
  rcases h with h | ⟨lon, lat, heq, hout⟩
  · rw [h]
  · rw [heq]
    dsimp only
    rw [if_pos hout]

/-- C1: for both reprojection routines, any target pixel whose inverse
projection is undefined or falls outside the Mercator domain
(latitude beyond 85 degrees in magnitude or longitude beyond 180)
stays fully transparent: all four RGBA bytes of that pixel are zero in
the returned buffer, for every source image and target size. -/
theorem c1_out_of_domain_pixels_transparent (invert : InvertFn)
    (sourceData : ImageData) (targetWidth targetHeight x y : ℕ)
    (h : invert ((x : ℝ), (y : ℝ)) = none ∨
      ∃ lon lat, invert ((x : ℝ), (y : ℝ)) = some (lon, lat) ∧
        (lat < -85 ∨ 85 < lat ∨ lon < -180 ∨ 180 < lon)) :
    isTransparent
      (reprojectMercatorToEquirectangular invert sourceData targetWidth targetHeight)
      x y ∧
    isTransparent
      (reprojectWithBilinear invert sourceData targetWidth targetHeight) x y := by
  have h1 := reprojectPixelNearest_none invert sourceData x y h
  have h2 := reprojectPixelBilinear_none invert sourceData x y h
  unfold isTransparent
  refine ⟨⟨?_, ?_, ?_, ?_⟩, ⟨?_, ?_, ?_, ?_⟩⟩ <;>
    simp [reprojectMercatorToEquirectangular, reprojectWithBilinear, h1, h2]

/-- C1 witness: an inverse that sends every pixel to latitude 100
leaves the single pixel of a 1 by 1 target transparent in both
routines. -/
theorem c1_witness :
    (witnessInvert (((0:ℕ) : ℝ), ((0:ℕ) : ℝ)) = none ∨
      ∃ lon lat, witnessInvert (((0:ℕ) : ℝ), ((0:ℕ) : ℝ)) = some (lon, lat) ∧
        (lat < -85 ∨ 85 < lat ∨ lon < -180 ∨ 180 < lon)) ∧
    isTransparent
      (reprojectMercatorToEquirectangular witnessInvert witnessSource 1 1) 0 0 ∧
    isTransparent (reprojectWithBilinear witnessInvert witnessSource 1 1) 0 0 := by
  have h : witnessInvert (((0:ℕ) : ℝ), ((0:ℕ) : ℝ)) = none ∨
      ∃ lon lat, witnessInvert (((0:ℕ) : ℝ), ((0:ℕ) : ℝ)) = some (lon, lat) ∧
        (lat < -85 ∨ 85 < lat ∨ lon < -180 ∨ 180 < lon) := by
    refine Or.inr ⟨0, 100, rfl, ?_⟩
    norm_num
  obtain ⟨a, b⟩ :=
    c1_out_of_domain_pixels_transparent witnessInvert witnessSource 1 1 0 0 h
  exact ⟨h, a, b⟩

end ReprojectionTheorems
